import Mathlib

/-!
Shallow embedding of the pix-generator workspace state engine
(src/stores/workspace-store.ts and src/utils/workspace-storage.ts).

Modelling conventions:
* JS numbers are modelled as rationals (ℚ); all arithmetic in the code under
  study is exact on the inputs considered (no claim concerns float rounding).
* Shape ids are integers (the code generates them with Date.now(), an
  integer number of milliseconds).
* A JS object used as a map (`Record<number, ShapeData>`) is modelled as an
  association list `List (Int × ShapeData)`.  Property assignment
  (`obj[k] = v`, also via spread `{...obj, [k]: v}`) replaces the value in
  place when the key is present and appends otherwise; property deletion
  (rest-destructuring `{[id]: _, ...rest}`) removes the key; property access
  returns the first (unique) binding.
* JS referential identity of unchanged sub-structures is modelled as
  structural equality of the corresponding Lean values: an operation that
  reuses an array/object by reference produces a state whose field is the
  very same Lean value.
-/

namespace PixGen

/-- Shape kind enumeration (`ShapeType` in src/constants/pixel-shape). -/
inductive ShapeType where
  | ellipse
  | crescent
  | box
deriving DecidableEq, Repr

/-- A 2D point with JS-number (here ℚ) coordinates. -/
structure Point where
  x : ℚ
  y : ℚ
deriving DecidableEq, Repr

/-- `ShapeData` from src/constants/pixel-shape, as used by the store. -/
structure ShapeData where
  id : Int
  type : ShapeType
  width : ℚ
  height : ℚ
  baseColor : String
  opacity : ℚ
  position : Point
deriving DecidableEq, Repr

/-- Association-list model of a JS `Record<number, ShapeData>`. -/
abbrev EntMap := List (Int × ShapeData)

/-- Property access `obj[k]`: first binding for the key, if any. -/
def objGet (m : EntMap) (k : Int) : Option ShapeData :=
  match m with
  | [] => none
  | (k', v) :: rest => if k' = k then some v else objGet rest k

/-- The keys of the object, in property order. -/
def objKeys (m : EntMap) : List Int :=
  m.map Prod.fst

/-- Property assignment `{...m, [k]: v}`: replace in place if the key is
present, append otherwise. -/
def objInsert (m : EntMap) (k : Int) (v : ShapeData) : EntMap :=
  if k ∈ objKeys m then
    m.map (fun p => if p.1 = k then (k, v) else p)
  else
    m ++ [(k, v)]

/-- Property deletion `{[k]: _, ...rest}`. -/
def objRemove (m : EntMap) (k : Int) : EntMap :=
  m.filter (fun p => p.1 ≠ k)

/-- `NormalizedShapes` (workspace-store.ts lines 10-13). -/
structure NormalizedShapes where
  ids : List Int
  entities : EntMap
deriving DecidableEq, Repr

/-- `WorkspaceState` (workspace-store.ts lines 15-34).  `formWidth`/`formHeight`
are nullable in the source (`number | null`), hence `Option ℚ`. -/
structure WorkspaceState where
  shapeState : NormalizedShapes
  selectedShapeId : Option Int
  currentShapeType : ShapeType
  formWidth : Option ℚ
  formHeight : Option ℚ
  formBaseColor : String
  formOpacity : ℚ
  zoom : ℚ
  canvasOffset : Point
  isControlsPanelOpen : Bool
  isShapeListOpen : Bool
deriving DecidableEq, Repr

/-- `Partial<PersistedWorkspace>` as consumed by `hydrate`: every field is
optional (`version` is not read by `hydrate` and is omitted). -/
structure HydrateData where
  shapes : Option (List ShapeData)
  zoom : Option ℚ
  canvasOffset : Option Point
  isControlsPanelOpen : Option Bool
  isShapeListOpen : Option Bool
deriving DecidableEq, Repr

/-- `normalizeShapes` (workspace-store.ts lines 85-95): pushes every shape's id
and assigns `entities[shape.id] = shape` in order. -/
def normalizeShapes (shapes : List ShapeData) : NormalizedShapes :=
  { ids := shapes.map (fun sh => sh.id)
    entities := shapes.foldl (fun e sh => objInsert e sh.id sh) [] }

/-- `denormalizeShapes` (workspace-store.ts lines 97-99).  The source maps each
id to `entities[id]`, which is `undefined` for a dangling id; the model drops
such bindings (`filterMap`), which agrees with the source whenever the
order/entities invariant holds. -/
def denormalizeShapes (state : NormalizedShapes) : List ShapeData :=
  state.ids.filterMap (fun id => objGet state.entities id)

/-- `clamp` (workspace-store.ts lines 101-103):
`Math.max(min, Math.min(max, value))`. -/
def clamp (value lo hi : ℚ) : ℚ :=
  max lo (min hi value)

/-- JS `Math.round`: round half toward positive infinity. -/
def jsRound (q : ℚ) : Int :=
  ⌊q + 1 / 2⌋

/-- `DEFAULT_STATE` (workspace-store.ts lines 109-121). -/
def DEFAULT_STATE : WorkspaceState :=
  { shapeState := { ids := [], entities := [] }
    selectedShapeId := none
    currentShapeType := .ellipse
    formWidth := some 10
    formHeight := some 10
    formBaseColor := "#007BFF"
    formOpacity := 1
    zoom := 10
    canvasOffset := { x := 0, y := 0 }
    isControlsPanelOpen := false
    isShapeListOpen := false }

/-- Shared add/update dimension check (`formWidth === null || formWidth <= 0`,
same for height). -/
def dimsValid (w h : Option ℚ) : Bool :=
  match w, h with
  | some w', some h' => decide (0 < w') && decide (0 < h')
  | _, _ => false

/-- `addShape` (workspace-store.ts lines 131-164).  The id the source draws
from `Date.now()` is passed in as `now`.  Returns the source's boolean result
together with the post state. -/
def addShape (now : Int) (position : Point) (s : WorkspaceState) :
    Bool × WorkspaceState :=
  match s.formWidth, s.formHeight with
  | some w, some h =>
    if w ≤ 0 ∨ h ≤ 0 then (false, s)
    else
      let newShape : ShapeData :=
        { id := now
          type := s.currentShapeType
          width := w
          height := h
          baseColor := s.formBaseColor
          opacity := s.formOpacity
          position := { x := (jsRound position.x : ℚ), y := (jsRound position.y : ℚ) } }
      (true,
        { s with
          shapeState :=
            { ids := s.shapeState.ids ++ [now]
              entities := objInsert s.shapeState.entities now newShape }
          selectedShapeId := none
          currentShapeType := .ellipse
          formWidth := some 10
          formHeight := some 10
          formBaseColor := "#007BFF"
          formOpacity := 1 })
  | _, _ => (false, s)

/-- `updateSelectedShape` (workspace-store.ts lines 166-203).  Mirrors the
source exactly: `!selectedShapeId` is true for `null` and for the falsy id `0`;
when the selected id does not resolve, the `set` callback returns the state
unchanged but the function still returns `true`. -/
def updateSelectedShape (s : WorkspaceState) : Bool × WorkspaceState :=
  match s.selectedShapeId with
  | none => (false, s)
  | some selId =>
    if selId = 0 then (false, s)
    else
      match s.formWidth, s.formHeight with
      | some w, some h =>
        if w ≤ 0 ∨ h ≤ 0 then (false, s)
        else
          match objGet s.shapeState.entities selId with
          | none => (true, s)
          | some existingShape =>
            (true,
              { s with
                shapeState :=
                  { s.shapeState with
                    entities :=
                      objInsert s.shapeState.entities selId
                        { existingShape with
                          width := w
                          height := h
                          baseColor := s.formBaseColor
                          opacity := s.formOpacity } }
                selectedShapeId := none
                currentShapeType := .ellipse
                formWidth := some 10
                formHeight := some 10
                formBaseColor := "#007BFF"
                formOpacity := 1 })
      | _, _ => (false, s)

/-- `removeShape` (workspace-store.ts lines 205-224). -/
def removeShape (id : Int) (s : WorkspaceState) : WorkspaceState :=
  let remainingEntities := objRemove s.shapeState.entities id
  let newIds := s.shapeState.ids.filter (fun shapeId => shapeId ≠ id)
  let newSelectedId :=
    if s.selectedShapeId = some id then
      match newIds with
      | [] => none
      | first :: _ => some first
    else s.selectedShapeId
  { s with
    shapeState := { ids := newIds, entities := remainingEntities }
    selectedShapeId := newSelectedId }

/-- `moveShape` (workspace-store.ts lines 226-241): replaces only the moved
entity's `position`; the `ids` array is reused by reference. -/
def moveShape (id : Int) (position : Point) (s : WorkspaceState) :
    WorkspaceState :=
  match objGet s.shapeState.entities id with
  | none => s
  | some existingShape =>
    { s with
      shapeState :=
        { s.shapeState with
          entities :=
            objInsert s.shapeState.entities id
              { existingShape with position := position } } }

/-- `Array.prototype.splice(start, 0, x)` as used on an index already clamped
by the caller, plus the JS clamping of an insertion index to the array length. -/
def spliceInsert (l : List Int) (n : Nat) (a : Int) : List Int :=
  l.insertIdx (min n l.length) a

/-- `moveShapeLayer` (workspace-store.ts lines 243-276).  `direction` is a raw
string, as in the source; the `default` switch branch reinserts at the original
index. -/
def moveShapeLayer (shapeId : Int) (direction : String) (s : WorkspaceState) :
    WorkspaceState :=
  match s.shapeState.ids.indexOf? shapeId with
  | none => s
  | some currentIndex =>
    let ids := s.shapeState.ids
    let newIds0 := ids.eraseIdx currentIndex
    let newIds :=
      if direction = "toFront" then newIds0 ++ [shapeId]
      else if direction = "toBack" then shapeId :: newIds0
      else if direction = "forward" then
        spliceInsert newIds0 (min (ids.length - 1) (currentIndex + 1)) shapeId
      else if direction = "backward" then
        spliceInsert newIds0 (currentIndex - 1) shapeId
      else spliceInsert newIds0 currentIndex shapeId
    { s with shapeState := { s.shapeState with ids := newIds } }

/-- `reorderShapes` (workspace-store.ts lines 278-287).  When `fromIndex` is
out of range the JS code would splice `undefined` into the ids array (a value
outside the id type); the model leaves the ids unchanged in that case.  Every
claim about this operation either assumes in-range indices or concerns only
the `entities` field, which is reused by reference in both semantics. -/
def reorderShapes (fromIndex toIndex : Nat) (s : WorkspaceState) :
    WorkspaceState :=
  let ids := s.shapeState.ids
  let newIds :=
    match ids.get? fromIndex with
    | none => ids
    | some movedId => spliceInsert (ids.eraseIdx fromIndex) toIndex movedId
  { s with shapeState := { s.shapeState with ids := newIds } }

/-- `setSelectedShapeId` (workspace-store.ts lines 293-310).  The guard
`id ? entities[id] : null` treats both `null` and the falsy id `0` as "no
lookup"; on a resolving id the form is synced from the entity, otherwise only
the selection is cleared (the form fields are left as they were). -/
def setSelectedShapeId (id : Option Int) (s : WorkspaceState) :
    WorkspaceState :=
  let shape :=
    match id with
    | some i => if i = 0 then none else objGet s.shapeState.entities i
    | none => none
  match shape with
  | some sh =>
    { s with
      selectedShapeId := id
      formWidth := some sh.width
      formHeight := some sh.height
      formBaseColor := sh.baseColor
      formOpacity := sh.opacity
      currentShapeType := sh.type }
  | none => { s with selectedShapeId := none }

/-- `resetFormToDefaults` (workspace-store.ts lines 312-321). -/
def resetFormToDefaults (s : WorkspaceState) : WorkspaceState :=
  { s with
    selectedShapeId := none
    currentShapeType := .ellipse
    formWidth := some 10
    formHeight := some 10
    formBaseColor := "#007BFF"
    formOpacity := 1 }

/-- `setZoom` (workspace-store.ts line 337). -/
def setZoom (minZoom maxZoom z : ℚ) (s : WorkspaceState) : WorkspaceState :=
  { s with zoom := clamp z minZoom maxZoom }

/-- `setCanvasOffset` (workspace-store.ts line 338). -/
def setCanvasOffset (offset : Point) (s : WorkspaceState) : WorkspaceState :=
  { s with canvasOffset := offset }

/-- `updateView` (workspace-store.ts lines 340-344). -/
def updateView (minZoom maxZoom z : ℚ) (offset : Point) (s : WorkspaceState) :
    WorkspaceState :=
  { s with zoom := clamp z minZoom maxZoom, canvasOffset := offset }

/-- Bounding-box minimum x of a non-empty shape list; the source seeds the
fold with `Infinity`, which over a non-empty list equals seeding with the
first element's value. -/
def bboxMinX (s0 : ShapeData) (rest : List ShapeData) : ℚ :=
  rest.foldl (fun m sh => min m sh.position.x) s0.position.x

/-- Bounding-box minimum y (seeded like `bboxMinX`). -/
def bboxMinY (s0 : ShapeData) (rest : List ShapeData) : ℚ :=
  rest.foldl (fun m sh => min m sh.position.y) s0.position.y

/-- Bounding-box maximum of `position.x + width` (seeded like `bboxMinX`). -/
def bboxMaxX (s0 : ShapeData) (rest : List ShapeData) : ℚ :=
  rest.foldl (fun m sh => max m (sh.position.x + sh.width))
    (s0.position.x + s0.width)

/-- Bounding-box maximum of `position.y + height` (seeded like `bboxMinX`). -/
def bboxMaxY (s0 : ShapeData) (rest : List ShapeData) : ℚ :=
  rest.foldl (fun m sh => max m (sh.position.y + sh.height))
    (s0.position.y + s0.height)

/-- `resetView` (workspace-store.ts lines 346-391).  Note the control flow of
the source: `newZoom`/`newOffset` start at the defaults `10`/`(0,0)` and are
only recomputed inside the `worldW > 0 && worldH > 0` branch; the final
`set({ zoom: newZoom, canvasOffset: newOffset })` runs unconditionally, so an
empty collection and a degenerate bounding box both store the defaults. -/
def resetView (minZoom maxZoom viewportWidth viewportHeight : ℚ)
    (s : WorkspaceState) : WorkspaceState :=
  let shapes := denormalizeShapes s.shapeState
  match shapes with
  | [] => { s with zoom := 10, canvasOffset := { x := 0, y := 0 } }
  | s0 :: rest =>
    let minX := bboxMinX s0 rest
    let minY := bboxMinY s0 rest
    let maxX := bboxMaxX s0 rest
    let maxY := bboxMaxY s0 rest
    let worldW := maxX - minX
    let worldH := maxY - minY
    if 0 < worldW ∧ 0 < worldH then
      let availableW := max 1 (viewportWidth - 2 * 50)
      let availableH := max 1 (viewportHeight - 2 * 50)
      let newZoom := clamp (min (availableW / worldW) (availableH / worldH))
        minZoom maxZoom
      let worldCenterX := (minX + maxX) / 2
      let worldCenterY := (minY + maxY) / 2
      { s with
        zoom := newZoom
        canvasOffset :=
          { x := viewportWidth / 2 - worldCenterX * newZoom
            y := viewportHeight / 2 - worldCenterY * newZoom } }
    else { s with zoom := 10, canvasOffset := { x := 0, y := 0 } }

/-- `setControlsPanelOpen` (workspace-store.ts line 397). -/
def setControlsPanelOpen (open_ : Bool) (s : WorkspaceState) : WorkspaceState :=
  { s with isControlsPanelOpen := open_ }

/-- `setShapeListOpen` (workspace-store.ts line 398). -/
def setShapeListOpen (open_ : Bool) (s : WorkspaceState) : WorkspaceState :=
  { s with isShapeListOpen := open_ }

/-- `toggleControlsPanel` (workspace-store.ts lines 399-400). -/
def toggleControlsPanel (s : WorkspaceState) : WorkspaceState :=
  { s with isControlsPanelOpen := !s.isControlsPanelOpen }

/-- `toggleShapeList` (workspace-store.ts lines 401-402). -/
def toggleShapeList (s : WorkspaceState) : WorkspaceState :=
  { s with isShapeListOpen := !s.isShapeListOpen }

/-- `hydrate` (workspace-store.ts lines 408-421): rebuilds `shapeState` from
the payload's shapes, always clears the selection, clamps the zoom (defaulting
to 10) and defaults the offset and UI flags; the form fields are not written. -/
def hydrate (minZoom maxZoom : ℚ) (data : HydrateData) (s : WorkspaceState) :
    WorkspaceState :=
  let shapes := data.shapes.getD []
  { s with
    shapeState := normalizeShapes shapes
    selectedShapeId := none
    zoom := clamp (data.zoom.getD 10) minZoom maxZoom
    canvasOffset := data.canvasOffset.getD { x := 0, y := 0 }
    isControlsPanelOpen := data.isControlsPanelOpen.getD false
    isShapeListOpen := data.isShapeListOpen.getD false }

/-- A parsed JSON value, as produced by `JSON.parse` (the input side of
`loadWorkspace` in src/utils/workspace-storage.ts). -/
inductive JsValue where
  | num (q : ℚ)
  | str (s : String)
  | bool (b : Bool)
  | null
  | arr (elems : List JsValue)
  | obj (fields : List (String × JsValue))

/-- Property access on a parsed JSON object. -/
def getField (fields : List (String × JsValue)) (name : String) :
    Option JsValue :=
  match fields with
  | [] => none
  | (n, v) :: rest => if n = name then some v else getField rest name

/-- `isValidShape` (workspace-storage.ts lines 19-41): the full per-shape
schema check.  `typeof x === 'object'` admits arrays and `null`, but `null` is
excluded explicitly and an array has no `x`/`y` string properties, so only a
genuine object can pass the position check. -/
def isValidShape (shape : JsValue) : Bool :=
  match shape with
  | .obj s =>
    (match getField s "id" with
     | some (.num _) => true
     | _ => false) &&
    (match getField s "type" with
     | some (.str t) => t = "ellipse" || t = "crescent" || t = "box"
     | _ => false) &&
    (match getField s "width" with
     | some (.num w) => decide (0 < w)
     | _ => false) &&
    (match getField s "height" with
     | some (.num h) => decide (0 < h)
     | _ => false) &&
    (match getField s "baseColor" with
     | some (.str _) => true
     | _ => false) &&
    (match getField s "opacity" with
     | some (.num o) => decide (0 ≤ o) && decide (o ≤ 1)
     | _ => false) &&
    (match getField s "position" with
     | some (.obj pos) =>
       (match getField pos "x" with
        | some (.num _) => true
        | _ => false) &&
       (match getField pos "y" with
        | some (.num _) => true
        | _ => false)
     | _ => false)
  | _ => false

/-- The record `loadWorkspace` returns (the `PersistedWorkspace` shape); the
shapes are kept as the raw parsed values that passed validation, exactly as
the source's `parsed.shapes.filter(isValidShape)` does. -/
structure LoadedWorkspace where
  version : ℚ
  shapes : List JsValue
  zoom : ℚ
  canvasOffset : Point
  isControlsPanelOpen : Bool
  isShapeListOpen : Bool

/-- `loadWorkspace` (workspace-storage.ts lines 54-108) applied to an already
parsed value; the absent/unparsable cases (`!stored`, `JSON.parse` throwing)
return `null` before this logic runs.  A non-object, an object whose `version`
is not the number `1`, or a `shapes` field that is not an array all yield
`none`; otherwise each field is validated and defaulted independently. -/
def loadWorkspaceParsed (minZoom maxZoom : ℚ) (parsed : JsValue) :
    Option LoadedWorkspace :=
  match parsed with
  | .obj fs =>
    match getField fs "version" with
    | some (.num v) =>
      if v = 1 then
        match getField fs "shapes" with
        | some (.arr shapes) =>
          let validShapes := shapes.filter isValidShape
          let zoom :=
            match getField fs "zoom" with
            | some (.num z) => clamp z minZoom maxZoom
            | _ => 10
          let canvasOffset :=
            match getField fs "canvasOffset" with
            | some (.obj off) =>
              match getField off "x", getField off "y" with
              | some (.num x), some (.num y) => Point.mk x y
              | _, _ => Point.mk 0 0
            | _ => Point.mk 0 0
          let isControlsPanelOpen :=
            match getField fs "isControlsPanelOpen" with
            | some (.bool b) => b
            | _ => false
          let isShapeListOpen :=
            match getField fs "isShapeListOpen" with
            | some (.bool b) => b
            | _ => false
          some
            { version := 1
              shapes := validShapes
              zoom := zoom
              canvasOffset := canvasOffset
              isControlsPanelOpen := isControlsPanelOpen
              isShapeListOpen := isShapeListOpen }
        | _ => none
      else none
    | _ => none
  | _ => none

/-- One store action, carrying the inputs of the corresponding source
function (`now` stands for the `Date.now()` value `addShape` reads). -/
inductive Action where
  | addShape (now : Int) (position : Point)
  | updateSelectedShape
  | removeShape (id : Int)
  | moveShape (id : Int) (position : Point)
  | moveShapeLayer (shapeId : Int) (direction : String)
  | reorderShapes (fromIndex toIndex : Nat)
  | setSelectedShapeId (id : Option Int)
  | resetFormToDefaults
  | setCurrentShapeType (t : ShapeType)
  | setFormWidth (w : Option ℚ)
  | setFormHeight (h : Option ℚ)
  | setFormBaseColor (c : String)
  | setFormOpacity (o : ℚ)
  | setZoom (z : ℚ)
  | setCanvasOffset (offset : Point)
  | updateView (z : ℚ) (offset : Point)
  | resetView (viewportWidth viewportHeight : ℚ)
  | setControlsPanelOpen (b : Bool)
  | setShapeListOpen (b : Bool)
  | toggleControlsPanel
  | toggleShapeList
  | hydrate (data : HydrateData)

/-- The state transformer of one action. -/
def applyAction (minZoom maxZoom : ℚ) (a : Action) (s : WorkspaceState) :
    WorkspaceState :=
  match a with
  | .addShape now position => (addShape now position s).2
  | .updateSelectedShape => (updateSelectedShape s).2
  | .removeShape id => removeShape id s
  | .moveShape id position => moveShape id position s
  | .moveShapeLayer shapeId direction => moveShapeLayer shapeId direction s
  | .reorderShapes fromIndex toIndex => reorderShapes fromIndex toIndex s
  | .setSelectedShapeId id => setSelectedShapeId id s
  | .resetFormToDefaults => resetFormToDefaults s
  | .setCurrentShapeType t => { s with currentShapeType := t }
  | .setFormWidth w => { s with formWidth := w }
  | .setFormHeight h => { s with formHeight := h }
  | .setFormBaseColor c => { s with formBaseColor := c }
  | .setFormOpacity o => { s with formOpacity := o }
  | .setZoom z => setZoom minZoom maxZoom z s
  | .setCanvasOffset offset => setCanvasOffset offset s
  | .updateView z offset => updateView minZoom maxZoom z offset s
  | .resetView vw vh => resetView minZoom maxZoom vw vh s
  | .setControlsPanelOpen b => setControlsPanelOpen b s
  | .setShapeListOpen b => setShapeListOpen b s
  | .toggleControlsPanel => toggleControlsPanel s
  | .toggleShapeList => toggleShapeList s
  | .hydrate data => hydrate minZoom maxZoom data s

/-- In-range side condition on `reorderShapes` indices (the only operation
whose out-of-range behaviour the spec leaves undefined); every other action is
unrestricted. -/
def actionInRange (a : Action) (s : WorkspaceState) : Prop :=
  match a with
  | .reorderShapes fromIndex toIndex =>
    fromIndex < s.shapeState.ids.length ∧ toIndex < s.shapeState.ids.length
  | _ => True

/-- Reachability from `DEFAULT_STATE` by any sequence of store actions with
in-range `reorderShapes` indices. -/
inductive Reachable (minZoom maxZoom : ℚ) : WorkspaceState → Prop where
  | init : Reachable minZoom maxZoom DEFAULT_STATE
  | step {s : WorkspaceState} (a : Action) :
      Reachable minZoom maxZoom s → actionInRange a s →
      Reachable minZoom maxZoom (applyAction minZoom maxZoom a s)

/-- Freshness side condition: `addShape` only runs with a `Date.now()` value
that is not an existing id, and `hydrate` only receives payloads whose shapes
carry pairwise-distinct ids.  These are exactly the conditions under which the
order/entities invariant is preserved. -/
def actionFresh (a : Action) (s : WorkspaceState) : Prop :=
  match a with
  | .addShape now _ => now ∉ s.shapeState.ids
  | .hydrate data => ((data.shapes.getD []).map (fun sh => sh.id)).Nodup
  | _ => True

/-- Reachability restricted to fresh ids (see `actionFresh`). -/
inductive ReachableFresh (minZoom maxZoom : ℚ) : WorkspaceState → Prop where
  | init : ReachableFresh minZoom maxZoom DEFAULT_STATE
  | step {s : WorkspaceState} (a : Action) :
      ReachableFresh minZoom maxZoom s → actionInRange a s → actionFresh a s →
      ReachableFresh minZoom maxZoom (applyAction minZoom maxZoom a s)

/-- The order/entities coherence invariant of a normalized shape collection
(spec: `order` contains each id exactly once, equals the key set of the
mapping, and order length equals entity count). -/
def StoreInv (ns : NormalizedShapes) : Prop :=
  ns.ids.Nodup ∧ (∀ k : Int, k ∈ ns.ids ↔ k ∈ objKeys ns.entities) ∧
    ns.ids.length = ns.entities.length

/-- Strengthened induction invariant: additionally the entity mapping's keys
are duplicate-free. -/
def StoreInvAux (ns : NormalizedShapes) : Prop :=
  ns.ids.Nodup ∧ (objKeys ns.entities).Nodup ∧
    (∀ k : Int, k ∈ ns.ids ↔ k ∈ objKeys ns.entities)

/-- The zoom-bounds invariant (spec: `MIN_ZOOM ≤ zoom ≤ MAX_ZOOM`). -/
def ZoomInv (minZoom maxZoom : ℚ) (s : WorkspaceState) : Prop :=
  minZoom ≤ s.zoom ∧ s.zoom ≤ maxZoom

/-- A sample shape used by concrete witnesses and counterexamples. -/
def sampleShape : ShapeData :=
  { id := 1
    type := .box
    width := 4
    height := 5
    baseColor := "#112233"
    opacity := 1
    position := { x := 2, y := 3 } }

/-- A second shape with the same id as `sampleShape` (distinct fields). -/
def sampleShapeDup : ShapeData :=
  { sampleShape with width := 7, baseColor := "#445566" }

/-- A zero-width shape, as a hydrate payload can contain. -/
def degenerateShape : ShapeData :=
  { id := 1
    type := .ellipse
    width := 0
    height := 5
    baseColor := "#112233"
    opacity := 1
    position := { x := 2, y := 3 } }

/-- Hydrate payload carrying two shapes with the same id. -/
def dupIdPayload : HydrateData :=
  { shapes := some [sampleShape, sampleShapeDup]
    zoom := none
    canvasOffset := none
    isControlsPanelOpen := none
    isShapeListOpen := none }

/-- Hydrate payload carrying one well-formed shape. -/
def singlePayload : HydrateData :=
  { shapes := some [sampleShape]
    zoom := some 25
    canvasOffset := some { x := 4, y := 6 }
    isControlsPanelOpen := some true
    isShapeListOpen := none }

/-- Default state with one shape of id 1. -/
def sampleState : WorkspaceState :=
  { DEFAULT_STATE with
    shapeState := { ids := [1], entities := [(1, sampleShape)] } }

/-- Default state with an edited (non-default) pending form width. -/
def formState : WorkspaceState :=
  { DEFAULT_STATE with formWidth := some 99 }

/-- A shape whose id is the falsy number 0. -/
def zeroShape : ShapeData :=
  { sampleShape with id := 0 }

/-- State holding only the id-0 shape. -/
def zeroIdState : WorkspaceState :=
  { DEFAULT_STATE with
    shapeState := { ids := [0], entities := [(0, zeroShape)] } }

/-- State whose selection dangles: id 5 is selected but no entity has id 5. -/
def danglingSelState : WorkspaceState :=
  { DEFAULT_STATE with selectedShapeId := some 5 }

/-- A box-kind shape with id 5. -/
def box5Shape : ShapeData :=
  { sampleShape with id := 5 }

/-- Editing state: shape 5 (a box) selected, pending kind left at the default
`ellipse`, pending dimensions 8 × 9. -/
def editState : WorkspaceState :=
  { DEFAULT_STATE with
    shapeState := { ids := [5], entities := [(5, box5Shape)] }
    selectedShapeId := some 5
    formWidth := some 8
    formHeight := some 9 }

/-- Non-empty state whose bounding box is degenerate (single zero-width
shape), with a non-default view. -/
def degenState : WorkspaceState :=
  { DEFAULT_STATE with
    shapeState := { ids := [1], entities := [(1, degenerateShape)] }
    zoom := 3
    canvasOffset := { x := 7, y := 9 } }

/-- A raw parsed shape record with the given id and width (other fields
fixed and valid). -/
def jsShape (id width : ℚ) : JsValue :=
  .obj
    [("id", .num id), ("type", .str "box"), ("width", .num width),
     ("height", .num 5), ("baseColor", .str "#112233"), ("opacity", .num 1),
     ("position", .obj [("x", .num 2), ("y", .num 3)])]

/-- Fields of a stored payload with matching version, two valid shapes and
one malformed shape (negative width). -/
def storedPayloadFields : List (String × JsValue) :=
  [("version", .num 1),
   ("shapes", .arr [jsShape 1 4, jsShape 2 6, jsShape 3 (-2)]),
   ("zoom", .num 12),
   ("canvasOffset", .obj [("x", .num 1), ("y", .num 2)]),
   ("isControlsPanelOpen", .bool true),
   ("isShapeListOpen", .bool false)]

/-- The stored payload built from `storedPayloadFields`. -/
def storedPayload : JsValue :=
  .obj storedPayloadFields

/-- Fields of a stored payload whose version (2) mismatches the schema
version (1). -/
def storedPayloadV2Fields : List (String × JsValue) :=
  [("version", .num 2), ("shapes", .arr [jsShape 1 4])]

/-- The version-2 stored payload built from `storedPayloadV2Fields`. -/
def storedPayloadV2 : JsValue :=
  .obj storedPayloadV2Fields

@[simp] theorem objKeys_nil : objKeys [] = [] := rfl

@[simp] theorem objKeys_cons (p : Int × ShapeData) (m : EntMap) :
    objKeys (p :: m) = p.1 :: objKeys m := rfl

@[simp] theorem objKeys_append (m m' : EntMap) :
    objKeys (m ++ m') = objKeys m ++ objKeys m' := by
  simp [objKeys]

theorem objGet_isSome_iff_mem (m : EntMap) (k : Int) :
    (objGet m k).isSome = true ↔ k ∈ objKeys m := by
  induction m with
  | nil => simp [objGet]
  | cons p rest ih =>
    obtain ⟨k', v⟩ := p
    by_cases h : k' = k
    · subst h; simp [objGet]
    · simp [objGet, h, ih, Ne.symm h]

theorem objKeys_map_replace (m : EntMap) (k : Int) (v : ShapeData) :
    objKeys (m.map (fun p => if p.1 = k then (k, v) else p)) = objKeys m := by
  induction m with
  | nil => rfl
  | cons p rest ih =>
    obtain ⟨k₀, v₀⟩ := p
    by_cases hk : k₀ = k
    · subst hk
      simp [ih]
    · simp [hk, ih]

theorem objKeys_objInsert_of_mem {m : EntMap} {k : Int} (v : ShapeData)
    (h : k ∈ objKeys m) : objKeys (objInsert m k v) = objKeys m := by
  unfold objInsert
  rw [if_pos h]
  exact objKeys_map_replace m k v

theorem objKeys_objInsert_of_not_mem {m : EntMap} {k : Int} (v : ShapeData)
    (h : k ∉ objKeys m) : objKeys (objInsert m k v) = objKeys m ++ [k] := by
  unfold objInsert
  rw [if_neg h]
  simp

theorem length_objInsert_of_mem {m : EntMap} {k : Int} (v : ShapeData)
    (h : k ∈ objKeys m) : (objInsert m k v).length = m.length := by
  unfold objInsert
  rw [if_pos h]
  simp

theorem length_objInsert_of_not_mem {m : EntMap} {k : Int} (v : ShapeData)
    (h : k ∉ objKeys m) : (objInsert m k v).length = m.length + 1 := by
  unfold objInsert
  rw [if_neg h]
  simp

theorem objKeys_filter_fst (m : EntMap) (q : Int → Bool) :
    objKeys (m.filter (fun p => q p.1)) = (objKeys m).filter q := by
  induction m with
  | nil => rfl
  | cons p rest ih =>
    obtain ⟨k₀, v₀⟩ := p
    rw [List.filter_cons]
    cases hq : q k₀ <;> simp [List.filter_cons, hq, ih]

theorem objKeys_objRemove (m : EntMap) (k : Int) :
    objKeys (objRemove m k) = (objKeys m).filter (fun x => x ≠ k) :=
  objKeys_filter_fst m (fun x => decide (x ≠ k))

theorem objGet_map_replace_self {m : EntMap} {k : Int} (v : ShapeData)
    (h : k ∈ objKeys m) :
    objGet (m.map (fun p => if p.1 = k then (k, v) else p)) k = some v := by
  induction m with
  | nil => simp at h
  | cons p rest ih =>
    obtain ⟨k₀, v₀⟩ := p
    rw [List.map_cons]
    by_cases hk : k₀ = k
    · subst hk
      rw [show (if (k₀, v₀).1 = k₀ then (k₀, v) else (k₀, v₀)) = (k₀, v) from if_pos rfl]
      simp [objGet]
    · rw [show (if (k₀, v₀).1 = k then (k, v) else (k₀, v₀)) = (k₀, v₀) from if_neg hk]
      simp only [objKeys_cons, List.mem_cons] at h
      rcases h with h | h
      · exact absurd h.symm hk
      · simp [objGet, hk, ih h]

theorem objGet_objInsert_self (m : EntMap) (k : Int) (v : ShapeData) :
    objGet (objInsert m k v) k = some v := by
  unfold objInsert
  by_cases h : k ∈ objKeys m
  · rw [if_pos h]
    exact objGet_map_replace_self v h
  · rw [if_neg h]
    induction m with
    | nil => simp [objGet]
    | cons p rest ih =>
      obtain ⟨k', v'⟩ := p
      simp only [objKeys_cons, List.mem_cons, not_or] at h
      simp [objGet, Ne.symm h.1, ih h.2]

theorem objGet_map_replace_ne (m : EntMap) {k k' : Int} (v : ShapeData)
    (h : k' ≠ k) :
    objGet (m.map (fun p => if p.1 = k then (k, v) else p)) k' = objGet m k' := by
  induction m with
  | nil => rfl
  | cons p rest ih =>
    obtain ⟨k₀, v₀⟩ := p
    rw [List.map_cons]
    by_cases hk : k₀ = k
    · subst hk
      rw [show (if (k₀, v₀).1 = k₀ then (k₀, v) else (k₀, v₀)) = (k₀, v) from if_pos rfl]
      simp [objGet, Ne.symm h, ih]
    · rw [show (if (k₀, v₀).1 = k then (k, v) else (k₀, v₀)) = (k₀, v₀) from if_neg hk]
      by_cases hk' : k₀ = k'
      · simp [objGet, hk']
      · simp [objGet, hk', ih]

theorem objGet_objInsert_ne (m : EntMap) {k k' : Int} (v : ShapeData)
    (h : k' ≠ k) : objGet (objInsert m k v) k' = objGet m k' := by
  unfold objInsert
  by_cases hm : k ∈ objKeys m
  · rw [if_pos hm]
    exact objGet_map_replace_ne m v h
  · rw [if_neg hm]
    induction m with
    | nil => simp [objGet, Ne.symm h]
    | cons p rest ih =>
      obtain ⟨k₀, v₀⟩ := p
      simp only [objKeys_cons, List.mem_cons, not_or] at hm
      by_cases hk' : k₀ = k'
      · simp [objGet, hk']
      · simp [objGet, hk', ih hm.2]

theorem objGet_some_mem_keys {m : EntMap} {k : Int} {v : ShapeData}
    (h : objGet m k = some v) : k ∈ objKeys m := by
  rw [← objGet_isSome_iff_mem, h]
  rfl

/-- C9: moveShape on a present id changes only that entity's position; the
ids order array is reused unchanged (referential identity, modelled as
structural equality), every other entity resolves to its pre-call value, and
every other field of the workspace state is unchanged. -/
theorem moveShape_frame (s : WorkspaceState) (id : Int) (pos : Point)
    (ex : ShapeData) (h : objGet s.shapeState.entities id = some ex) :
    (moveShape id pos s).shapeState.ids = s.shapeState.ids ∧
    objGet (moveShape id pos s).shapeState.entities id
      = some { ex with position := pos } ∧
    (∀ k : Int, k ≠ id →
      objGet (moveShape id pos s).shapeState.entities k
        = objGet s.shapeState.entities k) ∧
    (moveShape id pos s).selectedShapeId = s.selectedShapeId ∧
    (moveShape id pos s).currentShapeType = s.currentShapeType ∧
    (moveShape id pos s).formWidth = s.formWidth ∧
    (moveShape id pos s).formHeight = s.formHeight ∧
    (moveShape id pos s).formBaseColor = s.formBaseColor ∧
    (moveShape id pos s).formOpacity = s.formOpacity ∧
    (moveShape id pos s).zoom = s.zoom ∧
    (moveShape id pos s).canvasOffset = s.canvasOffset ∧
    (moveShape id pos s).isControlsPanelOpen = s.isControlsPanelOpen ∧
    (moveShape id pos s).isShapeListOpen = s.isShapeListOpen := by
  unfold moveShape
  rw [h]
  refine ⟨rfl, ?_, ?_, rfl, rfl, rfl, rfl, rfl, rfl, rfl, rfl, rfl, rfl⟩
  · exact objGet_objInsert_self s.shapeState.entities id _
  · intro k hk
    exact objGet_objInsert_ne s.shapeState.entities _ hk

/-- Witness for C9 at a concrete one-shape state. -/
theorem moveShape_frame_witness :
    (moveShape 1 { x := 11, y := 12 } sampleState).shapeState.ids
      = sampleState.shapeState.ids ∧
    objGet (moveShape 1 { x := 11, y := 12 } sampleState).shapeState.entities 1
      = some { sampleShape with position := { x := 11, y := 12 } } :=
  have h := moveShape_frame sampleState 1 { x := 11, y := 12 } sampleShape rfl
  ⟨h.1, h.2.1⟩

/-- C10: moveShapeLayer (any direction string, recognized or not) and
reorderShapes (any indices) modify only the ids order array: the entities
mapping is reused unchanged and every field outside `shapeState` is
unchanged. -/
theorem layer_reorder_entities_frame (s : WorkspaceState) (shapeId : Int)
    (direction : String) (fromIndex toIndex : Nat) :
    ((moveShapeLayer shapeId direction s).shapeState.entities
        = s.shapeState.entities ∧
      (moveShapeLayer shapeId direction s).selectedShapeId
        = s.selectedShapeId ∧
      (moveShapeLayer shapeId direction s).currentShapeType
        = s.currentShapeType ∧
      (moveShapeLayer shapeId direction s).formWidth = s.formWidth ∧
      (moveShapeLayer shapeId direction s).formHeight = s.formHeight ∧
      (moveShapeLayer shapeId direction s).formBaseColor = s.formBaseColor ∧
      (moveShapeLayer shapeId direction s).formOpacity = s.formOpacity ∧
      (moveShapeLayer shapeId direction s).zoom = s.zoom ∧
      (moveShapeLayer shapeId direction s).canvasOffset = s.canvasOffset ∧
      (moveShapeLayer shapeId direction s).isControlsPanelOpen
        = s.isControlsPanelOpen ∧
      (moveShapeLayer shapeId direction s).isShapeListOpen
        = s.isShapeListOpen) ∧
    ((reorderShapes fromIndex toIndex s).shapeState.entities
        = s.shapeState.entities ∧
      (reorderShapes fromIndex toIndex s).selectedShapeId
        = s.selectedShapeId ∧
      (reorderShapes fromIndex toIndex s).currentShapeType
        = s.currentShapeType ∧
      (reorderShapes fromIndex toIndex s).formWidth = s.formWidth ∧
      (reorderShapes fromIndex toIndex s).formHeight = s.formHeight ∧
      (reorderShapes fromIndex toIndex s).formBaseColor = s.formBaseColor ∧
      (reorderShapes fromIndex toIndex s).formOpacity = s.formOpacity ∧
      (reorderShapes fromIndex toIndex s).zoom = s.zoom ∧
      (reorderShapes fromIndex toIndex s).canvasOffset = s.canvasOffset ∧
      (reorderShapes fromIndex toIndex s).isControlsPanelOpen
        = s.isControlsPanelOpen ∧
      (reorderShapes fromIndex toIndex s).isShapeListOpen
        = s.isShapeListOpen) := by
  constructor
  · unfold moveShapeLayer
    cases h : s.shapeState.ids.indexOf? shapeId <;>
      exact ⟨rfl, rfl, rfl, rfl, rfl, rfl, rfl, rfl, rfl, rfl, rfl⟩
  · unfold reorderShapes
    exact ⟨rfl, rfl, rfl, rfl, rfl, rfl, rfl, rfl, rfl, rfl, rfl⟩

/-- Refutes C7 as stated: selecting `none` leaves the draft untouched instead
of resetting it to the creation defaults (here the pending width stays 99, not
10); and a resolving id that is the falsy number 0 does not set the selection
either. -/
theorem setSelectedShapeId_counterexample :
    (setSelectedShapeId none formState).formWidth = some 99 ∧
    (setSelectedShapeId none formState).formWidth ≠ some 10 ∧
    objGet zeroIdState.shapeState.entities 0 = some zeroShape ∧
    (setSelectedShapeId (some 0) zeroIdState).selectedShapeId = none := by
  refine ⟨rfl, ?_, rfl, rfl⟩
  intro h
  simp [setSelectedShapeId, formState, DEFAULT_STATE] at h

/-- C7 as amended: `select(id)` with a nonzero id resolving to a live entity
sets the selection and copies the entity's fields into the draft; with `none`,
`0`, or a non-resolving id it clears the selection and leaves every draft
field (and everything else) unchanged. -/
theorem setSelectedShapeId_spec (s : WorkspaceState) (id : Option Int) :
    (∀ i : Int, id = some i → i ≠ 0 →
      ∀ sh : ShapeData, objGet s.shapeState.entities i = some sh →
        setSelectedShapeId id s =
          { s with
            selectedShapeId := id
            formWidth := some sh.width
            formHeight := some sh.height
            formBaseColor := sh.baseColor
            formOpacity := sh.opacity
            currentShapeType := sh.type }) ∧
    ((id = none ∨ id = some 0 ∨
        (∃ i : Int, id = some i ∧ objGet s.shapeState.entities i = none)) →
      setSelectedShapeId id s = { s with selectedShapeId := none }) := by
  constructor
  · rintro i rfl hne sh hsh
    unfold setSelectedShapeId
    dsimp only
    rw [if_neg hne, hsh]
  · rintro (rfl | rfl | ⟨i, rfl, hi⟩)
    · rfl
    · unfold setSelectedShapeId
      dsimp only
      rw [if_pos rfl]
    · unfold setSelectedShapeId
      dsimp only
      by_cases h0 : i = 0
      · rw [if_pos h0]
      · rw [if_neg h0, hi]

/-- Witness for the amended C7 at concrete states: selecting shape 1 copies
its fields into the draft; selecting `none` only clears the selection. -/
theorem setSelectedShapeId_spec_witness :
    setSelectedShapeId (some 1) sampleState =
      { sampleState with
        selectedShapeId := some 1
        formWidth := some sampleShape.width
        formHeight := some sampleShape.height
        formBaseColor := sampleShape.baseColor
        formOpacity := sampleShape.opacity
        currentShapeType := sampleShape.type } ∧
    setSelectedShapeId none formState = { formState with selectedShapeId := none } :=
  ⟨(setSelectedShapeId_spec sampleState (some 1)).1 1 rfl (by decide) sampleShape rfl,
   (setSelectedShapeId_spec formState none).2 (Or.inl rfl)⟩

/-- Refutes C4 as stated: with a live but non-resolving selection (id 5
selected, no entity 5) and valid pending dimensions, `updateSelectedShape`
mutates nothing but returns `true`, not `false`. -/
theorem updateSelectedShape_counterexample :
    danglingSelState.selectedShapeId = some 5 ∧
    objGet danglingSelState.shapeState.entities 5 = none ∧
    (updateSelectedShape danglingSelState).1 = true ∧
    (updateSelectedShape danglingSelState).2 = danglingSelState := by
  exact ⟨rfl, rfl, rfl, rfl⟩

/-- C4 as amended: `updateSelectedShape` returns `false` and mutates nothing
when there is no selection (or the selected id is the falsy 0), and likewise
when the pending dimensions are invalid (null or non-positive width/height);
when a selection with valid dimensions does not resolve to an entity it still
mutates nothing, but returns `true`. -/
theorem updateSelectedShape_no_resolve (s : WorkspaceState) :
    (s.selectedShapeId = none → updateSelectedShape s = (false, s)) ∧
    (s.selectedShapeId = some 0 → updateSelectedShape s = (false, s)) ∧
    (∀ i : Int, s.selectedShapeId = some i → i ≠ 0 →
      dimsValid s.formWidth s.formHeight = false →
      updateSelectedShape s = (false, s)) ∧
    (∀ i : Int, s.selectedShapeId = some i → i ≠ 0 →
      objGet s.shapeState.entities i = none →
      (updateSelectedShape s).2 = s ∧
      (dimsValid s.formWidth s.formHeight = true →
        updateSelectedShape s = (true, s))) := by
  refine ⟨?_, ?_, ?_, ?_⟩
  · intro h
    unfold updateSelectedShape
    rw [h]
  · intro h
    unfold updateSelectedShape
    rw [h]
    dsimp only
    rw [if_pos rfl]
  · intro i hi hne hdims
    unfold updateSelectedShape
    rw [hi]
    dsimp only
    rw [if_neg hne]
    cases hw : s.formWidth with
    | none => rfl
    | some w =>
      cases hh : s.formHeight with
      | none => rfl
      | some h =>
        rw [hw, hh] at hdims
        have hle : w ≤ 0 ∨ h ≤ 0 := by
          by_contra hcon
          rw [not_or, not_le, not_le] at hcon
          have htrue : dimsValid (some w) (some h) = true := by
            simp [dimsValid, hcon.1, hcon.2]
          rw [htrue] at hdims
          simp at hdims
        dsimp only
        rw [if_pos hle]
  · intro i hi hne hres
    unfold updateSelectedShape
    rw [hi]
    dsimp only
    rw [if_neg hne]
    constructor
    · cases hw : s.formWidth with
      | none => rfl
      | some w =>
        cases hh : s.formHeight with
        | none => rfl
        | some h =>
          dsimp only
          by_cases hle : w ≤ 0 ∨ h ≤ 0
          · rw [if_pos hle]
          · rw [if_neg hle, hres]
    · intro hdims
      cases hw : s.formWidth with
      | none => rw [hw] at hdims; simp [dimsValid] at hdims
      | some w =>
        cases hh : s.formHeight with
        | none => rw [hw, hh] at hdims; simp [dimsValid] at hdims
        | some h =>
          rw [hw, hh] at hdims
          simp only [dimsValid, Bool.and_eq_true, decide_eq_true_eq] at hdims
          dsimp only
          rw [if_neg (not_or.mpr ⟨not_le.mpr hdims.1, not_le.mpr hdims.2⟩), hres]

/-- Witness for the amended C4 at concrete states: no selection gives false;
a selection with an invalid (zero) pending width gives false and no mutation;
a dangling selection with valid dimensions mutates nothing yet returns true. -/
theorem updateSelectedShape_no_resolve_witness :
    updateSelectedShape DEFAULT_STATE = (false, DEFAULT_STATE) ∧
    updateSelectedShape { editState with formWidth := some 0 } =
      (false, { editState with formWidth := some 0 }) ∧
    updateSelectedShape danglingSelState = (true, danglingSelState) :=
  ⟨(updateSelectedShape_no_resolve DEFAULT_STATE).1 rfl,
   (updateSelectedShape_no_resolve
      { editState with formWidth := some 0 }).2.2.1 5 rfl (by decide)
      (by decide),
   ((updateSelectedShape_no_resolve danglingSelState).2.2.2 5 rfl (by decide)
      rfl).2 (by decide)⟩

/-- Refutes C3 as stated: a successful update does not replace the entity's
kind with the draft's pending kind.  Shape 5 is a `box`, the pending kind is
`ellipse`, the update succeeds, yet the entity stays a `box`. -/
theorem updateSelectedShape_kind_counterexample :
    editState.currentShapeType = ShapeType.ellipse ∧
    (updateSelectedShape editState).1 = true ∧
    (objGet (updateSelectedShape editState).2.shapeState.entities 5).map
      (fun sh => sh.type) = some ShapeType.box ∧
    some editState.currentShapeType ≠
      (objGet (updateSelectedShape editState).2.shapeState.entities 5).map
        (fun sh => sh.type) := by
  refine ⟨rfl, rfl, rfl, ?_⟩
  intro h
  rw [show (objGet (updateSelectedShape editState).2.shapeState.entities 5).map
        (fun sh => sh.type) = some ShapeType.box from rfl] at h
  simp [editState, DEFAULT_STATE] at h

/-- C3 as amended: whenever `updateSelectedShape` succeeds on a resolving
selection, the entity's width, height, baseColor and opacity are replaced by
the draft's pending values while its id, kind and position are unchanged, all
other entities resolve to their pre-call values, the order is untouched, and
the selection is reset to none. -/
theorem updateSelectedShape_resolved_eq (s : WorkspaceState) (i : Int)
    (ex : ShapeData) (w h : ℚ) (hsel : s.selectedShapeId = some i)
    (h0 : i ≠ 0) (hw : s.formWidth = some w) (hh : s.formHeight = some h)
    (hle : ¬(w ≤ 0 ∨ h ≤ 0))
    (hres : objGet s.shapeState.entities i = some ex) :
    updateSelectedShape s =
      (true,
        { s with
          shapeState :=
            { s.shapeState with
              entities :=
                objInsert s.shapeState.entities i
                  { ex with
                    width := w
                    height := h
                    baseColor := s.formBaseColor
                    opacity := s.formOpacity } }
          selectedShapeId := none
          currentShapeType := .ellipse
          formWidth := some 10
          formHeight := some 10
          formBaseColor := "#007BFF"
          formOpacity := 1 }) := by
  unfold updateSelectedShape
  rw [hsel]
  dsimp only
  rw [if_neg h0, hw, hh]
  dsimp only
  rw [if_neg hle, hres]

theorem updateSelectedShape_true_dims (s : WorkspaceState) (i : Int)
    (hsel : s.selectedShapeId = some i) (h0 : i ≠ 0)
    (hsucc : (updateSelectedShape s).1 = true) :
    ∃ w h : ℚ, s.formWidth = some w ∧ s.formHeight = some h ∧
      ¬(w ≤ 0 ∨ h ≤ 0) := by
  unfold updateSelectedShape at hsucc
  rw [hsel] at hsucc
  dsimp only at hsucc
  rw [if_neg h0] at hsucc
  cases hw : s.formWidth with
  | none =>
    rw [hw] at hsucc
    cases hh : s.formHeight with
    | none => rw [hh] at hsucc; simp at hsucc
    | some h => rw [hh] at hsucc; simp at hsucc
  | some w =>
    cases hh : s.formHeight with
    | none => rw [hw, hh] at hsucc; simp at hsucc
    | some h =>
      rw [hw, hh] at hsucc
      dsimp only at hsucc
      by_cases hle : w ≤ 0 ∨ h ≤ 0
      · rw [if_pos hle] at hsucc
        simp at hsucc
      · exact ⟨w, h, rfl, rfl, hle⟩

theorem updateSelectedShape_success (s : WorkspaceState) (i : Int)
    (ex : ShapeData) (hsel : s.selectedShapeId = some i)
    (hres : objGet s.shapeState.entities i = some ex)
    (hsucc : (updateSelectedShape s).1 = true) :
    ∃ w h : ℚ, s.formWidth = some w ∧ s.formHeight = some h ∧
      (updateSelectedShape s).2.shapeState.ids = s.shapeState.ids ∧
      objGet (updateSelectedShape s).2.shapeState.entities i =
        some { ex with
               width := w
               height := h
               baseColor := s.formBaseColor
               opacity := s.formOpacity } ∧
      (∀ k : Int, k ≠ i →
        objGet (updateSelectedShape s).2.shapeState.entities k
          = objGet s.shapeState.entities k) ∧
      (updateSelectedShape s).2.selectedShapeId = none := by
  by_cases h0 : i = 0
  · subst h0
    unfold updateSelectedShape at hsucc
    rw [hsel] at hsucc
    dsimp only at hsucc
    rw [if_pos rfl] at hsucc
    simp at hsucc
  · obtain ⟨w, h, hw, hh, hle⟩ :=
      updateSelectedShape_true_dims s i hsel h0 hsucc
    rw [updateSelectedShape_resolved_eq s i ex w h hsel h0 hw hh hle hres]
    refine ⟨w, h, hw, hh, rfl, ?_, ?_, rfl⟩
    · exact objGet_objInsert_self s.shapeState.entities i _
    · intro k hk
      exact objGet_objInsert_ne s.shapeState.entities _ hk

/-- Witness for the amended C3 at the concrete editing state. -/
theorem updateSelectedShape_success_witness :
    objGet (updateSelectedShape editState).2.shapeState.entities 5 =
      some
        { box5Shape with
          width := 8
          height := 9
          baseColor := "#007BFF"
          opacity := 1 } ∧
    (updateSelectedShape editState).2.selectedShapeId = none := by
  obtain ⟨w, h, hw, hh, -, hent, -, hsel⟩ :=
    updateSelectedShape_success editState 5 box5Shape rfl rfl rfl
  have hw' : w = 8 := by
    have : some w = some (8 : ℚ) := hw.symm.trans rfl
    exact Option.some.inj this
  have hh' : h = 9 := by
    have : some h = some (9 : ℚ) := hh.symm.trans rfl
    exact Option.some.inj this
  subst hw' hh'
  exact ⟨hent, hsel⟩

theorem resetView_deg_eq (minZoom maxZoom vw vh : ℚ) (s : WorkspaceState)
    (s0 : ShapeData) (rest : List ShapeData)
    (hne : denormalizeShapes s.shapeState = s0 :: rest)
    (hdeg : bboxMaxX s0 rest - bboxMinX s0 rest ≤ 0 ∨
      bboxMaxY s0 rest - bboxMinY s0 rest ≤ 0) :
    resetView minZoom maxZoom vw vh s =
      { s with zoom := 10, canvasOffset := { x := 0, y := 0 } } := by
  unfold resetView
  rw [hne]
  dsimp only
  rw [if_neg ?_]
  rintro ⟨h1, h2⟩
  rcases hdeg with h | h
  · exact absurd h (not_le.mpr h1)
  · exact absurd h (not_le.mpr h2)

theorem degenState_bbox_w :
    bboxMaxX degenerateShape [] - bboxMinX degenerateShape [] = 0 := by
  norm_num [bboxMaxX, bboxMinX, degenerateShape]

/-- Refutes C5 as stated: on a non-empty collection with a degenerate
bounding box (single zero-width shape), `resetView` does not leave the view
unchanged — it resets zoom to 10 and the offset to the origin. -/
theorem resetView_degenerate_counterexample :
    denormalizeShapes degenState.shapeState = [degenerateShape] ∧
    bboxMaxX degenerateShape [] - bboxMinX degenerateShape [] = 0 ∧
    degenState.zoom = 3 ∧
    degenState.canvasOffset = { x := 7, y := 9 } ∧
    (resetView 1 40 300 300 degenState).zoom = 10 ∧
    (resetView 1 40 300 300 degenState).canvasOffset = { x := 0, y := 0 } ∧
    (resetView 1 40 300 300 degenState).zoom ≠ degenState.zoom := by
  have heq := resetView_deg_eq 1 40 300 300 degenState degenerateShape [] rfl
    (Or.inl (le_of_eq degenState_bbox_w))
  refine ⟨rfl, degenState_bbox_w, rfl, rfl, ?_, ?_, ?_⟩
  · rw [heq]
  · rw [heq]
  · rw [heq]
    show (10 : ℚ) ≠ 3
    norm_num

/-- C5 as amended: on a non-empty collection whose bounding box has world
width ≤ 0 or world height ≤ 0, `resetView` stores the defaults — zoom 10 and
offset (0,0) — exactly as for an empty collection, leaving everything else
unchanged. -/
theorem resetView_degenerate (minZoom maxZoom vw vh : ℚ) (s : WorkspaceState)
    (s0 : ShapeData) (rest : List ShapeData)
    (hne : denormalizeShapes s.shapeState = s0 :: rest)
    (hdeg : bboxMaxX s0 rest - bboxMinX s0 rest ≤ 0 ∨
      bboxMaxY s0 rest - bboxMinY s0 rest ≤ 0) :
    resetView minZoom maxZoom vw vh s =
      { s with zoom := 10, canvasOffset := { x := 0, y := 0 } } :=
  resetView_deg_eq minZoom maxZoom vw vh s s0 rest hne hdeg

/-- Witness for the amended C5 at the concrete degenerate state. -/
theorem resetView_degenerate_witness :
    resetView 1 40 300 300 degenState =
      { degenState with zoom := 10, canvasOffset := { x := 0, y := 0 } } :=
  resetView_degenerate 1 40 300 300 degenState degenerateShape [] rfl
    (Or.inl (le_of_eq degenState_bbox_w))

/-- Refutes C6 as stated: two successful `addShape` calls in the same
millisecond (`Date.now()` returning 1000 both times) generate equal ids — the
ids array ends as `[1000, 1000]`. -/
theorem addShape_collision_counterexample :
    (addShape 1000 { x := 0, y := 0 } DEFAULT_STATE).1 = true ∧
    (addShape 1000 { x := 0, y := 0 }
      (addShape 1000 { x := 0, y := 0 } DEFAULT_STATE).2).1 = true ∧
    (addShape 1000 { x := 0, y := 0 }
      (addShape 1000 { x := 0, y := 0 } DEFAULT_STATE).2).2.shapeState.ids
      = [1000, 1000] ∧
    ¬ (addShape 1000 { x := 0, y := 0 }
      (addShape 1000 { x := 0, y := 0 } DEFAULT_STATE).2).2.shapeState.ids.Nodup := by
  refine ⟨by decide, by decide, by decide, by decide⟩

/-- C6 as amended: the id generated by `addShape` is exactly the `Date.now()`
value, so two successful calls generate distinct ids when their timestamps
differ, and each new id avoids all pre-existing ids when its timestamp is not
among them: under these conditions the ids array stays duplicate-free. -/
theorem addShape_success_eq (s : WorkspaceState) (now : Int) (p : Point)
    (w h : ℚ) (hw : s.formWidth = some w) (hh : s.formHeight = some h)
    (hle : ¬(w ≤ 0 ∨ h ≤ 0)) :
    addShape now p s =
      (true,
        { s with
          shapeState :=
            { ids := s.shapeState.ids ++ [now]
              entities :=
                objInsert s.shapeState.entities now
                  { id := now
                    type := s.currentShapeType
                    width := w
                    height := h
                    baseColor := s.formBaseColor
                    opacity := s.formOpacity
                    position :=
                      { x := (jsRound p.x : ℚ), y := (jsRound p.y : ℚ) } } }
          selectedShapeId := none
          currentShapeType := .ellipse
          formWidth := some 10
          formHeight := some 10
          formBaseColor := "#007BFF"
          formOpacity := 1 }) := by
  unfold addShape
  rw [hw, hh]
  dsimp only
  rw [if_neg hle]

theorem addShape_true_dims (s : WorkspaceState) (now : Int) (p : Point)
    (hsucc : (addShape now p s).1 = true) :
    ∃ w h : ℚ, s.formWidth = some w ∧ s.formHeight = some h ∧
      ¬(w ≤ 0 ∨ h ≤ 0) := by
  unfold addShape at hsucc
  cases hw : s.formWidth with
  | none =>
    rw [hw] at hsucc
    cases hh : s.formHeight with
    | none => rw [hh] at hsucc; simp at hsucc
    | some h => rw [hh] at hsucc; simp at hsucc
  | some w =>
    cases hh : s.formHeight with
    | none => rw [hw, hh] at hsucc; simp at hsucc
    | some h =>
      rw [hw, hh] at hsucc
      dsimp only at hsucc
      by_cases hle : w ≤ 0 ∨ h ≤ 0
      · rw [if_pos hle] at hsucc
        simp at hsucc
      · exact ⟨w, h, rfl, rfl, hle⟩

theorem addShape_fresh_ids (s : WorkspaceState) (now₁ now₂ : Int)
    (p₁ p₂ : Point) (h₁ : (addShape now₁ p₁ s).1 = true) :
    (addShape now₂ p₂ (addShape now₁ p₁ s).2).1 = true ∧
    (addShape now₂ p₂ (addShape now₁ p₁ s).2).2.shapeState.ids
      = s.shapeState.ids ++ [now₁, now₂] ∧
    (s.shapeState.ids.Nodup → now₁ ∉ s.shapeState.ids →
      now₂ ∉ s.shapeState.ids → now₁ ≠ now₂ →
      (addShape now₂ p₂ (addShape now₁ p₁ s).2).2.shapeState.ids.Nodup) := by
  obtain ⟨w, h, hw, hh, hle⟩ := addShape_true_dims s now₁ p₁ h₁
  rw [addShape_success_eq s now₁ p₁ w h hw hh hle]
  rw [addShape_success_eq _ now₂ p₂ 10 10 rfl rfl
    (by decide : ¬((10 : ℚ) ≤ 0 ∨ (10 : ℚ) ≤ 0))]
  refine ⟨rfl, by simp, ?_⟩
  intro hnd h1 h2 hne
  dsimp only
  simp only [List.append_assoc]
  rw [List.nodup_append]
  refine ⟨hnd, by simp [hne], ?_⟩
  intro a ha
  simp only [List.cons_append, List.nil_append, List.mem_cons,
    List.not_mem_nil, or_false]
  rintro (rfl | rfl)
  · exact h1 ha
  · exact h2 ha

/-- Witness for the amended C6: two adds with distinct timestamps 1000 and
1001 on the default state extend the ids array with both, duplicate-free. -/
theorem addShape_fresh_ids_witness :
    (addShape 1001 { x := 0, y := 0 }
      (addShape 1000 { x := 0, y := 0 } DEFAULT_STATE).2).2.shapeState.ids
      = [1000, 1001] ∧
    (addShape 1001 { x := 0, y := 0 }
      (addShape 1000 { x := 0, y := 0 } DEFAULT_STATE).2).2.shapeState.ids.Nodup := by
  obtain ⟨-, hids, hnd⟩ :=
    addShape_fresh_ids DEFAULT_STATE 1000 1001 { x := 0, y := 0 }
      { x := 0, y := 0 } (by decide)
  exact ⟨hids, hnd (by decide) (by decide) (by decide) (by decide)⟩


/-- C8: `loadWorkspace` treats any record whose `version` field is not the
number 1 as absent, and on a matching version validates each element of the
shapes array independently, dropping invalid ones and keeping all valid ones
(the result's shapes are exactly the filter by `isValidShape`). -/
theorem loadWorkspace_version_filter (minZoom maxZoom : ℚ) :
    (∀ fs : List (String × JsValue),
      (∀ v : JsValue, getField fs "version" = some v → v ≠ JsValue.num 1) →
      loadWorkspaceParsed minZoom maxZoom (.obj fs) = none) ∧
    (∀ (fs : List (String × JsValue)) (l : List JsValue),
      getField fs "version" = some (.num 1) →
      getField fs "shapes" = some (.arr l) →
      ∃ r : LoadedWorkspace,
        loadWorkspaceParsed minZoom maxZoom (.obj fs) = some r ∧
        r.shapes = l.filter isValidShape) := by
  constructor
  · intro fs hv
    unfold loadWorkspaceParsed
    dsimp only
    cases hver : getField fs "version" with
    | none => rfl
    | some v =>
      cases v with
      | num q =>
        have hq : q ≠ 1 := by
          intro h
          exact hv _ hver (by rw [h])
        dsimp only
        rw [if_neg hq]
      | str s => rfl
      | bool b => rfl
      | null => rfl
      | arr elems => rfl
      | obj fields => rfl
  · intro fs l hver hsh
    unfold loadWorkspaceParsed
    dsimp only
    rw [hver]
    dsimp only
    rw [if_pos rfl, hsh]
    exact ⟨_, rfl, rfl⟩

/-- Witness for C8: the version-2 payload loads as "no prior state"; the
version-1 payload with two valid shapes and one negative-width shape loads
exactly the two valid shapes. -/
theorem loadWorkspace_version_filter_witness :
    loadWorkspaceParsed 1 40 storedPayloadV2 = none ∧
    (loadWorkspaceParsed 1 40 storedPayload).map (fun r => r.shapes)
      = some [jsShape 1 4, jsShape 2 6] := by
  constructor
  · refine (loadWorkspace_version_filter 1 40).1 storedPayloadV2Fields ?_
    intro v hv
    have hv2 : v = JsValue.num 2 := by
      have h := hv.symm.trans
        (show getField storedPayloadV2Fields "version" = some (.num 2) from rfl)
      exact Option.some.inj h
    subst hv2
    intro h
    injection h with h'
    norm_num at h'
  · obtain ⟨r, hr, hs⟩ :=
      (loadWorkspace_version_filter 1 40).2 storedPayloadFields
        [jsShape 1 4, jsShape 2 6, jsShape 3 (-2)] rfl rfl
    have : loadWorkspaceParsed 1 40 storedPayload = some r := hr
    rw [this]
    show some r.shapes = some [jsShape 1 4, jsShape 2 6]
    rw [hs]
    rfl


theorem clamp_bounds (z lo hi : ℚ) (h : lo ≤ hi) :
    lo ≤ clamp z lo hi ∧ clamp z lo hi ≤ hi :=
  ⟨le_max_left _ _, max_le h (min_le_left _ _)⟩

theorem addShape_zoom (now : Int) (p : Point) (s : WorkspaceState) :
    (addShape now p s).2.zoom = s.zoom := by
  unfold addShape
  cases s.formWidth with
  | none => rfl
  | some w =>
    cases s.formHeight with
    | none => rfl
    | some h =>
      dsimp only
      split <;> rfl

theorem updateSelectedShape_zoom (s : WorkspaceState) :
    (updateSelectedShape s).2.zoom = s.zoom := by
  unfold updateSelectedShape
  cases s.selectedShapeId with
  | none => rfl
  | some i =>
    dsimp only
    split
    · rfl
    · cases s.formWidth with
      | none => rfl
      | some w =>
        cases s.formHeight with
        | none => rfl
        | some h =>
          dsimp only
          split
          · rfl
          · cases objGet s.shapeState.entities i <;> rfl

theorem moveShape_zoom (id : Int) (p : Point) (s : WorkspaceState) :
    (moveShape id p s).zoom = s.zoom := by
  unfold moveShape
  cases objGet s.shapeState.entities id <;> rfl

theorem moveShapeLayer_zoom (id : Int) (dir : String) (s : WorkspaceState) :
    (moveShapeLayer id dir s).zoom = s.zoom := by
  unfold moveShapeLayer
  cases s.shapeState.ids.indexOf? id <;> rfl

theorem setSelectedShapeId_zoom (id : Option Int) (s : WorkspaceState) :
    (setSelectedShapeId id s).zoom = s.zoom := by
  unfold setSelectedShapeId
  cases id with
  | none => rfl
  | some i =>
    dsimp only
    by_cases h0 : i = 0
    · rw [if_pos h0]
    · rw [if_neg h0]
      cases objGet s.shapeState.entities i <;> rfl

theorem resetView_zoom_cases (minZ maxZ vw vh : ℚ) (s : WorkspaceState) :
    (resetView minZ maxZ vw vh s).zoom = 10 ∨
    ∃ z : ℚ, (resetView minZ maxZ vw vh s).zoom = clamp z minZ maxZ := by
  unfold resetView
  cases denormalizeShapes s.shapeState with
  | nil => left; rfl
  | cons s0 rest =>
    dsimp only
    split
    · right; exact ⟨_, rfl⟩
    · left; rfl

theorem zoomInv_step (minZ maxZ : ℚ) (hlo : minZ ≤ 10) (hhi : 10 ≤ maxZ)
    (a : Action) (s : WorkspaceState)
    (hs : minZ ≤ s.zoom ∧ s.zoom ≤ maxZ) :
    minZ ≤ (applyAction minZ maxZ a s).zoom ∧
    (applyAction minZ maxZ a s).zoom ≤ maxZ := by
  have hmm : minZ ≤ maxZ := hlo.trans hhi
  cases a with
  | addShape now p => rw [show (applyAction minZ maxZ (.addShape now p) s).zoom
      = (addShape now p s).2.zoom from rfl, addShape_zoom]; exact hs
  | updateSelectedShape => rw [show (applyAction minZ maxZ .updateSelectedShape s).zoom
      = (updateSelectedShape s).2.zoom from rfl, updateSelectedShape_zoom]; exact hs
  | removeShape id => exact hs
  | moveShape id p => rw [show (applyAction minZ maxZ (.moveShape id p) s).zoom
      = (moveShape id p s).zoom from rfl, moveShape_zoom]; exact hs
  | moveShapeLayer id dir => rw [show (applyAction minZ maxZ (.moveShapeLayer id dir) s).zoom
      = (moveShapeLayer id dir s).zoom from rfl, moveShapeLayer_zoom]; exact hs
  | reorderShapes i j => exact hs
  | setSelectedShapeId id => rw [show (applyAction minZ maxZ (.setSelectedShapeId id) s).zoom
      = (setSelectedShapeId id s).zoom from rfl, setSelectedShapeId_zoom]; exact hs
  | resetFormToDefaults => exact hs
  | setCurrentShapeType t => exact hs
  | setFormWidth w => exact hs
  | setFormHeight h => exact hs
  | setFormBaseColor c => exact hs
  | setFormOpacity o => exact hs
  | setZoom z => exact clamp_bounds z minZ maxZ hmm
  | setCanvasOffset o => exact hs
  | updateView z o => exact clamp_bounds z minZ maxZ hmm
  | resetView vw vh =>
    rcases resetView_zoom_cases minZ maxZ vw vh s with h | ⟨z, h⟩
    · rw [show (applyAction minZ maxZ (.resetView vw vh) s).zoom
        = (resetView minZ maxZ vw vh s).zoom from rfl, h]
      exact ⟨hlo, hhi⟩
    · rw [show (applyAction minZ maxZ (.resetView vw vh) s).zoom
        = (resetView minZ maxZ vw vh s).zoom from rfl, h]
      exact clamp_bounds z minZ maxZ hmm
  | setControlsPanelOpen b => exact hs
  | setShapeListOpen b => exact hs
  | toggleControlsPanel => exact hs
  | toggleShapeList => exact hs
  | hydrate d => exact clamp_bounds _ minZ maxZ hmm

/-- C2: provided the default zoom 10 lies between the bounds, every state
reachable by any sequence of store actions (every writer of `zoom` clamps, and
`resetView`'s default branch stores 10) satisfies
`minZoom ≤ zoom ≤ maxZoom`. -/
theorem zoom_always_bounded (minZoom maxZoom : ℚ) (hlo : minZoom ≤ 10)
    (hhi : 10 ≤ maxZoom) (s : WorkspaceState)
    (hreach : Reachable minZoom maxZoom s) :
    minZoom ≤ s.zoom ∧ s.zoom ≤ maxZoom := by
  induction hreach with
  | init => exact ⟨hlo, hhi⟩
  | step a hr hir ih => exact zoomInv_step minZoom maxZoom hlo hhi a _ ih

/-- Witness for C2: setting zoom to 100 under bounds [1, 40] clamps into the
bounds. -/
theorem zoom_always_bounded_witness :
    (1 : ℚ) ≤ (applyAction 1 40 (.setZoom 100) DEFAULT_STATE).zoom ∧
    (applyAction 1 40 (.setZoom 100) DEFAULT_STATE).zoom ≤ 40 :=
  zoom_always_bounded 1 40 (by norm_num) (by norm_num) _
    (Reachable.step _ Reachable.init trivial)


theorem mem_objKeys_objInsert (m : EntMap) (k : Int) (v : ShapeData)
    (k' : Int) :
    k' ∈ objKeys (objInsert m k v) ↔ k' = k ∨ k' ∈ objKeys m := by
  by_cases h : k ∈ objKeys m
  · rw [objKeys_objInsert_of_mem v h]
    constructor
    · exact Or.inr
    · rintro (rfl | h')
      · exact h
      · exact h'
  · rw [objKeys_objInsert_of_not_mem v h]
    rw [List.mem_append, List.mem_singleton]
    tauto

theorem nodup_objKeys_objInsert (m : EntMap) (k : Int) (v : ShapeData)
    (h : (objKeys m).Nodup) : (objKeys (objInsert m k v)).Nodup := by
  by_cases hk : k ∈ objKeys m
  · rw [objKeys_objInsert_of_mem v hk]
    exact h
  · rw [objKeys_objInsert_of_not_mem v hk]
    exact List.perm_append_comm.nodup_iff.mpr (by simp [List.nodup_cons, h, hk])

theorem mem_objKeys_normalize_fold (shapes : List ShapeData) :
    ∀ (e : EntMap) (k : Int),
      k ∈ objKeys (shapes.foldl (fun e sh => objInsert e sh.id sh) e) ↔
      k ∈ objKeys e ∨ k ∈ shapes.map (fun sh => sh.id) := by
  induction shapes with
  | nil => intro e k; simp
  | cons sh rest ih =>
    intro e k
    rw [List.foldl_cons, ih (objInsert e sh.id sh) k, mem_objKeys_objInsert]
    simp only [List.map_cons, List.mem_cons]
    tauto

theorem nodup_objKeys_normalize_fold (shapes : List ShapeData) :
    ∀ e : EntMap, (objKeys e).Nodup →
      (objKeys (shapes.foldl (fun e sh => objInsert e sh.id sh) e)).Nodup := by
  induction shapes with
  | nil => intro e h; exact h
  | cons sh rest ih =>
    intro e h
    rw [List.foldl_cons]
    exact ih _ (nodup_objKeys_objInsert _ _ _ h)

theorem indexOf?_get? :
    ∀ (l : List Int) (a : Int) (i : Nat),
      l.indexOf? a = some i → l.get? i = some a := by
  intro l
  induction l with
  | nil => intro a i h; simp [List.indexOf?] at h
  | cons x xs ih =>
    intro a i h
    rw [List.indexOf?_cons] at h
    by_cases hx : x == a
    · rw [if_pos hx] at h
      obtain rfl : (0 : Nat) = i := Option.some.inj h
      have hxa : x = a := by simpa using hx
      subst hxa
      rfl
    · rw [if_neg hx] at h
      cases hxs : xs.indexOf? a with
      | none => rw [hxs] at h; simp at h
      | some j =>
        rw [hxs] at h
        have hji : j + 1 = i := by simpa using h
        subst hji
        exact ih a j hxs

theorem perm_cons_eraseIdx :
    ∀ (l : List Int) (i : Nat) (a : Int),
      l.get? i = some a → List.Perm l (a :: l.eraseIdx i) := by
  intro l
  induction l with
  | nil => intro i a h; simp at h
  | cons x xs ih =>
    intro i a h
    cases i with
    | zero =>
      have hx : x = a := Option.some.inj h
      subst hx
      exact List.Perm.refl _
    | succ j =>
      have h' : xs.get? j = some a := h
      have hper := (ih j a h').cons x
      exact hper.trans (List.Perm.swap a x (xs.eraseIdx j))

theorem insertIdx_perm_cons :
    ∀ (n : Nat) (l : List Int) (a : Int),
      n ≤ l.length → List.Perm (l.insertIdx n a) (a :: l) := by
  intro n
  induction n with
  | zero =>
    intro l a h
    rw [List.insertIdx_zero]
  | succ m ih =>
    intro l a h
    cases l with
    | nil => simp at h
    | cons x xs =>
      rw [List.insertIdx_succ_cons]
      have hper := (ih xs a (Nat.le_of_succ_le_succ h)).cons x
      exact hper.trans (List.Perm.swap a x xs)

theorem spliceInsert_perm (l : List Int) (n : Nat) (a : Int) :
    List.Perm (spliceInsert l n a) (a :: l) :=
  insertIdx_perm_cons (min n l.length) l a (min_le_right _ _)

theorem moveShapeLayer_ids_perm (id : Int) (dir : String)
    (s : WorkspaceState) :
    List.Perm (moveShapeLayer id dir s).shapeState.ids s.shapeState.ids := by
  unfold moveShapeLayer
  cases hidx : s.shapeState.ids.indexOf? id with
  | none => exact List.Perm.refl _
  | some ci =>
    dsimp only
    have hget := indexOf?_get? _ _ _ hidx
    have hbase : List.Perm s.shapeState.ids
        (id :: s.shapeState.ids.eraseIdx ci) :=
      perm_cons_eraseIdx _ _ _ hget
    split_ifs
    · exact List.perm_append_comm.trans hbase.symm
    · exact hbase.symm
    · exact (spliceInsert_perm _ _ _).trans hbase.symm
    · exact (spliceInsert_perm _ _ _).trans hbase.symm
    · exact (spliceInsert_perm _ _ _).trans hbase.symm

theorem reorderShapes_ids_perm (i j : Nat) (s : WorkspaceState)
    (h : i < s.shapeState.ids.length) :
    List.Perm (reorderShapes i j s).shapeState.ids s.shapeState.ids := by
  obtain ⟨moved, hget⟩ : ∃ m : Int, s.shapeState.ids.get? i = some m := by
    cases hq : s.shapeState.ids.get? i with
    | none =>
      rw [List.get?_eq_none] at hq
      omega
    | some m => exact ⟨m, rfl⟩
  unfold reorderShapes
  dsimp only
  rw [hget]
  exact (spliceInsert_perm _ _ _).trans (perm_cons_eraseIdx _ _ _ hget).symm

theorem storeInvAux_of_perm {ns ns' : NormalizedShapes}
    (hids : List.Perm ns'.ids ns.ids) (hent : ns'.entities = ns.entities)
    (h : StoreInvAux ns) : StoreInvAux ns' := by
  obtain ⟨h1, h2, h3⟩ := h
  refine ⟨hids.nodup_iff.mpr h1, hent ▸ h2, ?_⟩
  intro k
  rw [hids.mem_iff, hent, h3 k]

theorem storeInv_of_aux {ns : NormalizedShapes} (h : StoreInvAux ns) :
    StoreInv ns := by
  obtain ⟨h1, h2, h3⟩ := h
  refine ⟨h1, h3, ?_⟩
  have hperm : List.Perm ns.ids (objKeys ns.entities) :=
    (List.perm_ext_iff_of_nodup h1 h2).2 h3
  rw [hperm.length_eq]
  simp [objKeys]


theorem moveShapeLayer_entities (id : Int) (dir : String)
    (s : WorkspaceState) :
    (moveShapeLayer id dir s).shapeState.entities
      = s.shapeState.entities := by
  unfold moveShapeLayer
  cases s.shapeState.ids.indexOf? id <;> rfl

theorem reorderShapes_entities (i j : Nat) (s : WorkspaceState) :
    (reorderShapes i j s).shapeState.entities = s.shapeState.entities := rfl

theorem setSelectedShapeId_shapeState (id : Option Int)
    (s : WorkspaceState) :
    (setSelectedShapeId id s).shapeState = s.shapeState := by
  unfold setSelectedShapeId
  cases id with
  | none => rfl
  | some i =>
    dsimp only
    by_cases h0 : i = 0
    · rw [if_pos h0]
    · rw [if_neg h0]
      cases objGet s.shapeState.entities i <;> rfl

theorem resetView_shapeState (minZ maxZ vw vh : ℚ) (s : WorkspaceState) :
    (resetView minZ maxZ vw vh s).shapeState = s.shapeState := by
  unfold resetView
  cases denormalizeShapes s.shapeState with
  | nil => rfl
  | cons s0 rest =>
    dsimp only
    split <;> rfl

theorem storeInvAux_updateSelectedShape (s : WorkspaceState)
    (hinv : StoreInvAux s.shapeState) :
    StoreInvAux (updateSelectedShape s).2.shapeState := by
  unfold updateSelectedShape
  cases s.selectedShapeId with
  | none => exact hinv
  | some i =>
    dsimp only
    split
    · exact hinv
    · cases s.formWidth with
      | none => exact hinv
      | some w =>
        cases s.formHeight with
        | none => exact hinv
        | some h =>
          dsimp only
          split
          · exact hinv
          · cases hres : objGet s.shapeState.entities i with
            | none => exact hinv
            | some ex =>
              dsimp only
              obtain ⟨h1, h2, h3⟩ := hinv
              have hmem := objGet_some_mem_keys hres
              refine ⟨h1, ?_, ?_⟩
              · rw [objKeys_objInsert_of_mem _ hmem]
                exact h2
              · intro k
                rw [objKeys_objInsert_of_mem _ hmem]
                exact h3 k

theorem storeInvAux_step (minZ maxZ : ℚ) (a : Action) (s : WorkspaceState)
    (hinv : StoreInvAux s.shapeState) (hir : actionInRange a s)
    (hfr : actionFresh a s) :
    StoreInvAux (applyAction minZ maxZ a s).shapeState := by
  cases a with
  | addShape now p =>
    show StoreInvAux (addShape now p s).2.shapeState
    have hfr' : now ∉ s.shapeState.ids := hfr
    cases hw : s.formWidth with
    | none =>
      unfold addShape
      rw [hw]
      exact hinv
    | some w =>
      cases hh : s.formHeight with
      | none =>
        unfold addShape
        rw [hw, hh]
        exact hinv
      | some h =>
        by_cases hle : w ≤ 0 ∨ h ≤ 0
        · unfold addShape
          rw [hw, hh]
          dsimp only
          rw [if_pos hle]
          exact hinv
        · rw [addShape_success_eq s now p w h hw hh hle]
          obtain ⟨h1, h2, h3⟩ := hinv
          have hnk : now ∉ objKeys s.shapeState.entities :=
            fun hm => hfr' ((h3 now).mpr hm)
          refine ⟨?_, ?_, ?_⟩
          · rw [List.nodup_append]
            refine ⟨h1, List.nodup_singleton _, ?_⟩
            intro x hx hx'
            rw [List.mem_singleton] at hx'
            exact hfr' (hx' ▸ hx)
          · show (objKeys (objInsert s.shapeState.entities now _)).Nodup
            rw [objKeys_objInsert_of_not_mem _ hnk, List.nodup_append]
            refine ⟨h2, List.nodup_singleton _, ?_⟩
            intro x hx hx'
            rw [List.mem_singleton] at hx'
            exact hnk (hx' ▸ hx)
          · intro k
            show k ∈ _ ++ [now] ↔ k ∈ objKeys (objInsert s.shapeState.entities now _)
            rw [objKeys_objInsert_of_not_mem _ hnk]
            simp only [List.mem_append, List.mem_singleton]
            rw [h3 k]
  | updateSelectedShape => exact storeInvAux_updateSelectedShape s hinv
  | removeShape id =>
    show StoreInvAux (removeShape id s).shapeState
    obtain ⟨h1, h2, h3⟩ := hinv
    unfold removeShape
    dsimp only
    refine ⟨List.Nodup.filter _ h1, ?_, ?_⟩
    · rw [objKeys_objRemove]
      exact List.Nodup.filter _ h2
    · intro k
      rw [objKeys_objRemove]
      simp only [List.mem_filter, decide_eq_true_eq]
      rw [h3 k]
  | moveShape id p =>
    show StoreInvAux (moveShape id p s).shapeState
    unfold moveShape
    cases hres : objGet s.shapeState.entities id with
    | none => exact hinv
    | some ex =>
      dsimp only
      obtain ⟨h1, h2, h3⟩ := hinv
      have hmem := objGet_some_mem_keys hres
      refine ⟨h1, ?_, ?_⟩
      · rw [objKeys_objInsert_of_mem _ hmem]
        exact h2
      · intro k
        rw [objKeys_objInsert_of_mem _ hmem]
        exact h3 k
  | moveShapeLayer id dir =>
    exact storeInvAux_of_perm (moveShapeLayer_ids_perm id dir s)
      (moveShapeLayer_entities id dir s) hinv
  | reorderShapes i j =>
    exact storeInvAux_of_perm (reorderShapes_ids_perm i j s hir.1)
      (reorderShapes_entities i j s) hinv
  | setSelectedShapeId id =>
    show StoreInvAux (setSelectedShapeId id s).shapeState
    rw [setSelectedShapeId_shapeState]
    exact hinv
  | resetFormToDefaults => exact hinv
  | setCurrentShapeType t => exact hinv
  | setFormWidth w => exact hinv
  | setFormHeight h => exact hinv
  | setFormBaseColor c => exact hinv
  | setFormOpacity o => exact hinv
  | setZoom z => exact hinv
  | setCanvasOffset o => exact hinv
  | updateView z o => exact hinv
  | resetView vw vh =>
    show StoreInvAux (resetView minZ maxZ vw vh s).shapeState
    rw [resetView_shapeState]
    exact hinv
  | setControlsPanelOpen b => exact hinv
  | setShapeListOpen b => exact hinv
  | toggleControlsPanel => exact hinv
  | toggleShapeList => exact hinv
  | hydrate d =>
    show StoreInvAux (hydrate minZ maxZ d s).shapeState
    have hfr' : ((d.shapes.getD []).map (fun sh => sh.id)).Nodup := hfr
    unfold hydrate normalizeShapes
    dsimp only
    refine ⟨hfr', ?_, ?_⟩
    · exact nodup_objKeys_normalize_fold _ [] (by simp)
    · intro k
      rw [mem_objKeys_normalize_fold]
      simp

/-- C1 as amended: provided every id `addShape` generates is not already
present and every hydrate payload carries pairwise-distinct shape ids, every
reachable state's order sequence is duplicate-free, its ids coincide exactly
with the key set of the entity mapping, and its length equals the entity
count.  (Unrestricted, the invariant fails: see the counterexample.) -/
theorem reachableFresh_storeInv (minZoom maxZoom : ℚ) (s : WorkspaceState)
    (hreach : ReachableFresh minZoom maxZoom s) :
    s.shapeState.ids.Nodup ∧
    (∀ k : Int, k ∈ s.shapeState.ids ↔ k ∈ objKeys s.shapeState.entities) ∧
    s.shapeState.ids.length = s.shapeState.entities.length := by
  have haux : StoreInvAux s.shapeState := by
    induction hreach with
    | init => exact ⟨List.nodup_nil, List.nodup_nil, fun k => Iff.rfl⟩
    | step a hr hir hfr ih => exact storeInvAux_step minZoom maxZoom a _ ih hir hfr
  exact storeInv_of_aux haux

/-- Witness for the amended C1: the state reached by one fresh `addShape`
satisfies the order/entities invariant. -/
theorem reachableFresh_storeInv_witness :
    (applyAction 1 40 (.addShape 1000 { x := 0, y := 0 })
        DEFAULT_STATE).shapeState.ids.Nodup ∧
    (applyAction 1 40 (.addShape 1000 { x := 0, y := 0 })
        DEFAULT_STATE).shapeState.ids.length =
      (applyAction 1 40 (.addShape 1000 { x := 0, y := 0 })
        DEFAULT_STATE).shapeState.entities.length :=
  have h := reachableFresh_storeInv 1 40 _
    (ReachableFresh.step (.addShape 1000 { x := 0, y := 0 })
      ReachableFresh.init trivial (List.not_mem_nil 1000))
  ⟨h.1, h.2.2⟩

/-- Refutes C1 as stated: hydrating with a payload whose two shapes share the
id 1 is a reachable transition, and it yields `ids = [1, 1]` — the order
sequence does not contain each id exactly once. -/
theorem reachable_storeInv_counterexample :
    Reachable 1 40 (applyAction 1 40 (.hydrate dupIdPayload) DEFAULT_STATE) ∧
    (applyAction 1 40 (.hydrate dupIdPayload) DEFAULT_STATE).shapeState.ids
      = [1, 1] ∧
    ¬ (applyAction 1 40
        (.hydrate dupIdPayload) DEFAULT_STATE).shapeState.ids.Nodup ∧
    ¬ StoreInv (applyAction 1 40
        (.hydrate dupIdPayload) DEFAULT_STATE).shapeState := by
  refine ⟨Reachable.step _ Reachable.init trivial, rfl, ?_, ?_⟩
  · intro h
    simp [hydrate, normalizeShapes, dupIdPayload, sampleShape, sampleShapeDup,
      DEFAULT_STATE, applyAction] at h
  · rintro ⟨h, -⟩
    simp [hydrate, normalizeShapes, dupIdPayload, sampleShape, sampleShapeDup,
      DEFAULT_STATE, applyAction] at h

end PixGen
